import Mathlib

/-!
Verification of the ibu-imager seed-image creation pipeline.

The Go sources embedded here are `internal/seed_creator/seed_creator.go`,
`cmd/create.go` and `cmd/utils.go`.  External processes (crictl, oc, tar,
ostree, rpm-ostree, podman, systemd) and the filesystem are modelled as
oracles supplied through environment records; each pipeline function is
translated into a Lean function that returns its Go result together with
the list of host effects it performed, in order.  Logging calls
(logrus/log) are not tracked as effects.
-/

/-- Result of an `os.Stat` call: the file exists (`err == nil`), the file
does not exist (`os.IsNotExist(err)`), or some other error occurred
(for example permission denied). -/
inductive StatResult
  | ok
  | notExist
  | otherErr (msg : String)
deriving DecidableEq, Repr

/-- A Go error value as observed by the pipeline: an ordinary `error`,
a `log.Fatal` (process exit), or a runtime panic. -/
inductive GoErr
  | goErr (msg : String)
  | fatal (msg : String)
  | panicked (msg : String)
deriving DecidableEq, Repr

/-- `errors.Wrap err msg` from github.com/pkg/errors: prepends
`msg ++ ": "` to the message of an ordinary error. -/
def errWrap (e : GoErr) (msg : String) : GoErr :=
  match e with
  | .goErr m => .goErr (msg ++ ": " ++ m)
  | x => x

/-- Accumulator-style worker for Go `strings.Split` with a one-character
separator: splits the character list around every occurrence of `sep`. -/
def goSplitAux (sep : Char) : List Char → List Char → List (List Char)
  | [], acc => [acc.reverse]
  | c :: cs, acc =>
    if c = sep then acc.reverse :: goSplitAux sep cs []
    else goSplitAux sep cs (c :: acc)

/-- Go `strings.Split(s, sep)` for a single-character separator. -/
def goSplit (s : String) (sep : Char) : List String :=
  (goSplitAux sep s.data []).map String.mk

/-- Go slice indexing `xs[i]`: panics (runtime error) when out of range. -/
def goIndex {α : Type} : List α → Nat → Except GoErr α
  | [], _ => .error (.panicked "runtime error: index out of range")
  | x :: _, 0 => .ok x
  | _ :: xs, n + 1 => goIndex xs n

/-- The commit sha derived from a deployment ID in `backupOstreeOrigin`
(seed_creator.go line 412) and `create` (create.go line 262):
`strings.Split(bootedID, "-")[1]`. -/
def deploymentCommit (bootedID : String) : Except GoErr String :=
  goIndex (goSplit bootedID '-') 1

/-- The single quote character, used by the Go code to protect glob
patterns and jq/awk scripts from shell expansion. -/
def squoteChar : Char := Char.ofNat 39

/-- Wrap a string in single quotes, as the Go `fmt.Sprintf` quoting of
glob patterns and the quoted jq/awk literals do. -/
def shellQuote (s : String) : String :=
  String.singleton squoteChar ++ s ++ String.singleton squoteChar

/-- The substring of `s` strictly after the first occurrence of a dash,
used to state C4 the way the spec words it (character-list worker). -/
def afterFirstDashAux : List Char → List Char
  | [] => []
  | c :: cs => if c = '-' then cs else afterFirstDashAux cs

/-- The substring of `s` strictly after the first dash of `s`. -/
def afterFirstDash (s : String) : String :=
  String.mk (afterFirstDashAux s.data)

theorem goSplitAux_no_sep (sep : Char) (l : List Char) (h : sep ∉ l) (acc : List Char) :
    goSplitAux sep l acc = [acc.reverse ++ l] := by
  induction l generalizing acc with
  | nil => simp [goSplitAux]
  | cons c cs ih =>
    have hc : c ≠ sep := fun he => h (he ▸ List.mem_cons_self c cs)
    have hcs : sep ∉ cs := fun hm => h (List.mem_cons_of_mem c hm)
    simp only [goSplitAux, if_neg hc]
    rw [ih hcs]
    simp

theorem goSplitAux_with_sep (sep : Char) (l rest : List Char) (h : sep ∉ l) (acc : List Char) :
    goSplitAux sep (l ++ sep :: rest) acc = (acc.reverse ++ l) :: goSplitAux sep rest [] := by
  induction l generalizing acc with
  | nil => simp [goSplitAux]
  | cons c cs ih =>
    have hc : c ≠ sep := fun he => h (he ▸ List.mem_cons_self c cs)
    have hcs : sep ∉ cs := fun hm => h (List.mem_cons_of_mem c hm)
    simp only [List.cons_append, goSplitAux, if_neg hc, List.append_eq]
    rw [ih hcs]
    simp

/-- `String.data` distributes over string append. -/
theorem strDataAppend (a b : String) : (a ++ b).data = a.data ++ b.data := by
  cases a; cases b; rfl

theorem afterFirstDashAux_no_dash (l rest : List Char) (h : '-' ∉ l) :
    afterFirstDashAux (l ++ '-' :: rest) = rest := by
  induction l with
  | nil => simp [afterFirstDashAux]
  | cons c cs ih =>
    have hc : c ≠ '-' := fun he => h (he ▸ List.mem_cons_self c cs)
    have hcs : '-' ∉ cs := fun hm => h (List.mem_cons_of_mem c hm)
    simp only [List.cons_append, afterFirstDashAux, if_neg hc]
    exact ih hcs

/-- C4: for every deployment ID of the form `<name>-<sha>` where neither
component contains a dash, the commit derived by
`strings.Split(bootedID, "-")[1]` equals the substring of the ID after
the first dash, and both equal `<sha>`. -/
theorem deploymentCommit_after_first_dash (name sha : String)
    (hn : '-' ∉ name.data) (hs : '-' ∉ sha.data) :
    deploymentCommit (name ++ "-" ++ sha) = Except.ok sha ∧
    afterFirstDash (name ++ "-" ++ sha) = sha := by
  have hdata : (name ++ "-" ++ sha).data = name.data ++ '-' :: sha.data := by
    rw [strDataAppend, strDataAppend]
    show name.data ++ ['-'] ++ sha.data = _
    simp
  constructor
  · rw [deploymentCommit, goSplit, hdata, goSplitAux_with_sep _ _ _ hn,
      goSplitAux_no_sep _ _ hs]
    rfl
  · rw [afterFirstDash, hdata, afterFirstDashAux_no_dash _ _ hn]

/-- Witness for C4 at the concrete deployment ID `rhcos-813febc`. -/
theorem deploymentCommit_after_first_dash_witness :
    deploymentCommit ("rhcos" ++ "-" ++ "813febc") = Except.ok "813febc" ∧
    afterFirstDash ("rhcos" ++ "-" ++ "813febc") = "813febc" :=
  deploymentCommit_after_first_dash "rhcos" "813febc" (by decide) (by decide)

/-- One host effect performed by the pipeline, in the order executed.
`runBash` is `ops.RunBashInHostNamespace`, `runHost` is
`ops.RunInHostNamespace`, `systemctl` is `ops.SystemctlAction`;
the remaining constructors model direct `os` calls, the fixed
`time.Sleep`, and the two ostree-client queries. -/
inductive Eff
  | mkdirAll (p : String)
  | statF (p : String)
  | readFile (p : String)
  | runBash (cmd : String) (args : List String)
  | runHost (cmd : String) (args : List String)
  | systemctl (action : String) (unit : String)
  | createFile (p : String)
  | createTemp (dir : String) (pat : String)
  | writeTempFile
  | removeTempFile
  | sleepSecs (n : Nat)
  | queryVersion
  | queryStatus
deriving DecidableEq, Repr

/-- One rpm-ostree deployment from the status JSON: OS name, opaque ID
and booted flag (the fields `backupOstreeOrigin` reads). -/
structure Deployment where
  osname : String
  id : String
  booted : Bool
deriving DecidableEq, Repr

/-- The parsed `rpm-ostree status` document (ostree.Status): the ordered
deployment list. -/
structure OstreeStatus where
  deployments : List Deployment
deriving DecidableEq, Repr

/-- One entry of `spec.containers` in the parsed static pod manifest:
the optional string fields `name` and `image` (absent or non-string
fields are `none`); a list entry that is not a map at all is modelled
as `none` at the list level. -/
structure GoContainer where
  name : Option String
  image : Option String
deriving DecidableEq, Repr

/-- The SeedCreator configuration record (seed_creator.go lines 26-37);
the logger, ops and ostree-client handles live in `Env`. -/
structure SeedCreator where
  backupDir : String
  kubeconfig : String
  containerRegistry : String
  backupTag : String
  authFile : String
  recertContainerImage : String
  etcdStaticPodFile : String
deriving DecidableEq, Repr

/-- The external world as the pipeline observes it: results of `os`
calls, of commands run through the ops adapter, of the ostree status
query, and of parsing the etcd static pod manifest.  `etcdPodFile p`
is the composite of `os.ReadFile p`, `yaml.Unmarshal` and the
`spec.containers` extraction: `.error` is a read or unmarshal failure,
`.ok none` means no `spec.containers` list was found, `.ok (some cs)`
is the container list. -/
structure Env where
  stat : String → StatResult
  mkdirAllRes : String → Option String
  createRes : String → Option String
  bash : String → List String → Except String String
  host : String → List String → Except String String
  sys : String → String → Except String String
  rpmOstreeStatus : Except String OstreeStatus
  etcdPodFile : String → Except String (Option (List (Option GoContainer)))
  tempFileRes : Except String String
  writeRes : Option String

/-- Result of a pipeline fragment: the Go return value (or error) and
the trace of host effects it performed. -/
abbrev StageRes (α : Type) := Except GoErr α × List Eff

/-- Sequencing of pipeline fragments: on success continue and append
the traces, on error stop (every Go `if err != nil return err`). -/
def stepBind {α β : Type} (a : StageRes α) (f : α → StageRes β) : StageRes β :=
  match a with
  | (.ok x, t) => ((f x).1, t ++ (f x).2)
  | (.error er, t) => (.error er, t)

/-- `os.Stat p` observed through the environment. -/
def statStep (e : Env) (p : String) : StageRes StatResult :=
  (.ok (e.stat p), [.statF p])

/-- `os.MkdirAll p mode`. -/
def mkdirStep (e : Env) (p : String) : StageRes Unit :=
  match e.mkdirAllRes p with
  | none => (.ok (), [.mkdirAll p])
  | some m => (.error (.goErr m), [.mkdirAll p])

/-- `os.Create p`. -/
def createStep (e : Env) (p : String) : StageRes Unit :=
  match e.createRes p with
  | none => (.ok (), [.createFile p])
  | some m => (.error (.goErr m), [.createFile p])

/-- `ops.RunBashInHostNamespace cmd args...`. -/
def bashStep (e : Env) (cmd : String) (args : List String) : StageRes String :=
  match e.bash cmd args with
  | .ok o => (.ok o, [.runBash cmd args])
  | .error m => (.error (.goErr m), [.runBash cmd args])

/-- `ops.RunInHostNamespace cmd args...`. -/
def hostStep (e : Env) (cmd : String) (args : List String) : StageRes String :=
  match e.host cmd args with
  | .ok o => (.ok o, [.runHost cmd args])
  | .error m => (.error (.goErr m), [.runHost cmd args])

/-- `ops.RunInHostNamespace` whose error the caller wraps with
`errors.Wrap(err, msg)`. -/
def hostStepWrap (e : Env) (cmd : String) (args : List String) (msg : String) : StageRes String :=
  match e.host cmd args with
  | .ok o => (.ok o, [.runHost cmd args])
  | .error m => (.error (errWrap (.goErr m) msg), [.runHost cmd args])

/-- `ops.SystemctlAction action unit`. -/
def sysStep (e : Env) (action : String) (unit : String) : StageRes String :=
  match e.sys action unit with
  | .ok o => (.ok o, [.systemctl action unit])
  | .error m => (.error (.goErr m), [.systemctl action unit])

/-- `ostreeClient.QueryStatus()`, wrapped by the caller with
"Failed to query ostree status" (seed_creator.go line 369). -/
def queryStatusStep (e : Env) : StageRes OstreeStatus :=
  match e.rpmOstreeStatus with
  | .ok st => (.ok st, [.queryStatus])
  | .error m => (.error (errWrap (.goErr m) "Failed to query ostree status"), [.queryStatus])

/-- `os.CreateTemp("/var/tmp", "dockerfile-")` with the callers wrap
"Error creating temporary file". -/
def tempStep (e : Env) : StageRes String :=
  match e.tempFileRes with
  | .ok nm => (.ok nm, [.createTemp "/var/tmp" "dockerfile-"])
  | .error m => (.error (errWrap (.goErr m) "Error creating temporary file"), [.createTemp "/var/tmp" "dockerfile-"])

/-- `tmpfile.WriteString(containerFileContent)` with the callers wrap
"Error writing to temporary file". -/
def writeStep (e : Env) : StageRes Unit :=
  match e.writeRes with
  | none => (.ok (), [.writeTempFile])
  | some m => (.error (errWrap (.goErr m) "Error writing to temporary file"), [.writeTempFile])

/-- The deferred `os.Remove(tmpfile.Name())`: once the temporary file
exists, its removal runs on every exit path of the enclosing function. -/
def withDeferredRemove (k : StageRes Unit) : StageRes Unit :=
  (k.1, k.2 ++ [Eff.removeTempFile])

/-- The jq filter extracting image references from `crictl images`. -/
def jqImagesScript : String := shellQuote ".images[] | .repoDigests[], .repoTags[]"

/-- `createContainerList` (seed_creator.go lines 103-147): gated by the
sentinel `/var/tmp/container_list.done`; note that a stat error other
than not-exist also takes the skip branch (`os.IsNotExist` is false). -/
def createContainerList (s : SeedCreator) (e : Env) : StageRes Unit :=
  stepBind (statStep e "/var/tmp/container_list.done") fun st =>
  match st with
  | .notExist =>
    stepBind (bashStep e "crictl"
      ["images", "-o", "json", "|", "jq", "-r", jqImagesScript, ">", s.backupDir ++ "/containers.list"]) fun _ =>
    stepBind (bashStep e "oc"
      ["get", "catalogsource", "-A", "-o", "json", "--kubeconfig", s.kubeconfig,
       "|", "jq", "-r", shellQuote ".items[].spec.image", ">", s.backupDir ++ "/catalogimages.list"]) fun _ =>
    stepBind (bashStep e "oc"
      ["get", "clusterversion", "version", "-o", "json", "--kubeconfig", s.kubeconfig,
       ">", s.backupDir ++ "/clusterversion.json"]) fun _ =>
    stepBind (createStep e "/var/tmp/container_list.done") fun _ =>
    (Except.ok (), [])
  | _ => (Except.ok (), [])

/-- The bounded-concurrency container stop command of `stopServices`. -/
def crictlStopArgs : List String :=
  ["ps", "-q", "|", "xargs", "--no-run-if-empty", "--max-args", "1", "--max-procs", "10",
   "crictl", "stop", "--timeout", "5"]

/-- `stopServices` (seed_creator.go lines 149-190): stop and disable
kubelet, then stop containers and CRI-O only when `is-active crio`
reports "active". -/
def stopServices (e : Env) : StageRes Unit :=
  stepBind (sysStep e "stop" "kubelet.service") fun _ =>
  stepBind (sysStep e "disable" "kubelet.service") fun _ =>
  stepBind (sysStep e "is-active" "crio") fun crioSystemdStatus =>
  if crioSystemdStatus = "active" then
    stepBind (bashStep e "crictl" crictlStopArgs) fun _ =>
    stepBind (sysStep e "stop" "crio.service") fun _ =>
    (Except.ok (), [])
  else (Except.ok (), [])

/-- The loop body of `getEtcdImageFromStaticDefinition`: first container
map whose name is "etcd" and that carries a string image field; an
etcd-named container without an image does not stop the scan. -/
def findEtcdImage : List (Option GoContainer) → Option String
  | [] => none
  | none :: rest => findEtcdImage rest
  | some c :: rest =>
    if c.name = some "etcd" then
      match c.image with
      | some image => some image
      | none => findEtcdImage rest
    else findEtcdImage rest

/-- `getEtcdImageFromStaticDefinition` (seed_creator.go lines 432-461):
reads the static pod manifest and returns the etcd container image;
`log.Fatal` (modelled as `GoErr.fatal`) when reading or unmarshaling
fails or when no etcd container with an image field exists. -/
def getEtcdImageFromStaticDefinition (s : SeedCreator) (e : Env) : Except GoErr String :=
  match e.etcdPodFile s.etcdStaticPodFile with
  | .error m => .error (.fatal ("Error reading etcd static pod definition: " ++ m))
  | .ok none => .error (.fatal "etcd container image not found in the YAML.")
  | .ok (some containers) =>
    match findEtcdImage containers with
    | some image => .ok image
    | none => .error (.fatal "etcd container image not found in the YAML.")

/-- Arguments of the detached unauthenticated etcd container started
for the recert dry-run (seed_creator.go lines 204-210). -/
def recertEtcdRunArgs (s : SeedCreator) (etcdImage : String) : List String :=
  ["run", "--name recert_etcd", "--detach", "--rm", "--network=host", "--privileged",
   "--authfile", s.authFile, "--entrypoint", "etcd",
   "-v", "/var/lib/etcd:/store", etcdImage, "--name", "editor", "--data-dir", "/store"]

/-- Arguments of the recert dry-run container (seed_creator.go lines
224-238). -/
def recertRunArgs (s : SeedCreator) : List String :=
  ["run", "--rm", "--name recert", "--network=host", "--privileged", "--authfile", s.authFile,
   "-v", s.backupDir ++ ":/backup",
   "-v", "/etc/kubernetes:/kubernetes",
   "-v", "/var/lib/kubelet:/kubelet",
   "-v", "/etc/machine-config-daemon:/machine-config-daemon",
   s.recertContainerImage,
   "--etcd-endpoint", "localhost:2379",
   "--static-dir", "/kubernetes",
   "--static-dir", "/kubelet",
   "--static-dir", "/machine-config-daemon",
   "--extend-expiration", "--dry-run", "--summary-file-clean", "/backup/recert.summary"]

/-- `runRecertDryRun` (seed_creator.go lines 192-253): resolve the etcd
image, start the ephemeral etcd, sleep 10 seconds, run recert in dry-run
mode, then kill the ephemeral etcd.  Each failing step returns its
wrapped error at once, so the kill only runs after a successful
dry-run. -/
def runRecertDryRun (s : SeedCreator) (e : Env) : StageRes Unit :=
  stepBind ((getEtcdImageFromStaticDefinition s e, [Eff.readFile s.etcdStaticPodFile]) : StageRes String) fun etcdImage =>
  stepBind (hostStepWrap e "podman" (recertEtcdRunArgs s etcdImage) "Failed to run recert_etcd container") fun _ =>
  stepBind ((Except.ok (), [Eff.sleepSecs 10]) : StageRes Unit) fun _ =>
  stepBind (hostStepWrap e "podman" (recertRunArgs s) "Failed to run recert container") fun _ =>
  stepBind (hostStepWrap e "podman" ["kill", "recert_etcd"] "Failed to kill recert_etcd container") fun _ =>
  (Except.ok (), [])

/-- The fixed exclusion patterns of the /var backup (seed_creator.go
lines 264-271). -/
def varExcludePatterns : List String :=
  ["/var/tmp/*", "/var/lib/log/*", "/var/log/*", "/var/lib/containers/*",
   "/var/lib/kubelet/pods/*", "/var/lib/cni/bin/*"]

/-- The tar argument list of the /var backup (seed_creator.go lines
273-279): czf, one single-quoted --exclude per pattern, then --selinux
and the source directory. -/
def varTarArgs (varTarFile : String) : List String :=
  (varExcludePatterns.foldl (fun tarArgs pattern => tarArgs ++ ["--exclude", shellQuote pattern])
    ["czf", varTarFile]) ++ ["--selinux", "/var"]

/-- `backupVar` (seed_creator.go lines 255-289): gated by var.tgz. -/
def backupVar (s : SeedCreator) (e : Env) : StageRes Unit :=
  let varTarFile := s.backupDir ++ "/var.tgz"
  stepBind (statStep e varTarFile) fun st =>
  match st with
  | .ok => (Except.ok (), [])
  | .otherErr m => (Except.error (GoErr.goErr m), [])
  | .notExist =>
    stepBind (bashStep e "tar" (varTarArgs varTarFile)) fun _ =>
    (Except.ok (), [])

/-- The awk script selecting deleted /etc entries of the config diff. -/
def awkDeletionsScript : String := shellQuote ("$1 == \"D\" \x7bprint \"/etc/\" $2\x7d")

/-- The awk script selecting added or changed /etc entries. -/
def awkAdditionsScript : String := shellQuote ("$1 != \"D\" \x7bprint \"/etc/\" $2\x7d")

/-- The shell pipeline producing etc.deletions (seed_creator.go lines
301-302). -/
def etcDeletionsArgs (s : SeedCreator) : List String :=
  ["admin", "config-diff", "|", "awk", awkDeletionsScript, ">", s.backupDir ++ "/etc.deletions"]

/-- The shell pipeline producing etc.tgz (seed_creator.go lines
308-309). -/
def etcTgzArgs (s : SeedCreator) : List String :=
  ["admin", "config-diff", "|", "awk", awkAdditionsScript, "|", "xargs", "tar", "czf",
   s.backupDir ++ "/etc.tgz", "--selinux"]

/-- `backupEtc` (seed_creator.go lines 291-317): both etc.deletions and
etc.tgz are produced under the single etc.tgz marker. -/
def backupEtc (s : SeedCreator) (e : Env) : StageRes Unit :=
  stepBind (statStep e (s.backupDir ++ "/etc.tgz")) fun st =>
  match st with
  | .ok => (Except.ok (), [])
  | .otherErr m => (Except.error (GoErr.goErr m), [])
  | .notExist =>
    stepBind (bashStep e "ostree" (etcDeletionsArgs s)) fun _ =>
    stepBind (bashStep e "ostree" (etcTgzArgs s)) fun _ =>
    (Except.ok (), [])

/-- `backupOstree` (seed_creator.go lines 319-332): gated by
ostree.tgz. -/
def backupOstree (s : SeedCreator) (e : Env) : StageRes Unit :=
  let ostreeTar := s.backupDir ++ "/ostree.tgz"
  stepBind (statStep e ostreeTar) fun st =>
  match st with
  | .ok => (Except.ok (), [])
  | .otherErr m => (Except.error (GoErr.goErr m), [])
  | .notExist =>
    stepBind (bashStep e "tar" ["czf", ostreeTar, "--selinux", "-C", "/ostree/repo", "."]) fun _ =>
    (Except.ok (), [])

/-- `backupRPMOstree` (seed_creator.go lines 334-345): gated by
rpm-ostree.json. -/
def backupRPMOstree (s : SeedCreator) (e : Env) : StageRes Unit :=
  let rpmJson := s.backupDir ++ "/rpm-ostree.json"
  stepBind (statStep e rpmJson) fun st =>
  match st with
  | .ok => (Except.ok (), [])
  | .otherErr m => (Except.error (GoErr.goErr m), [])
  | .notExist =>
    stepBind (bashStep e "rpm-ostree" ["status", "-v", "--json", ">", rpmJson]) fun _ =>
    (Except.ok (), [])

/-- `backupMCOConfig` (seed_creator.go lines 347-358): gated by
mco-currentconfig.json. -/
def backupMCOConfig (s : SeedCreator) (e : Env) : StageRes Unit :=
  let mcoJson := s.backupDir ++ "/mco-currentconfig.json"
  stepBind (statStep e mcoJson) fun st =>
  match st with
  | .ok => (Except.ok (), [])
  | .otherErr m => (Except.error (GoErr.goErr m), [])
  | .notExist =>
    stepBind (bashStep e "cp" ["/etc/machine-config-daemon/currentconfig", mcoJson]) fun _ =>
    (Except.ok (), [])

/-- `backupOstreeOrigin` (seed_creator.go lines 405-428): reads
deployment 0 of the status (commented in the source as the booted
deployment), derives the commit by splitting its ID, and copies the
origin file unless the commit-named marker already exists. -/
def backupOstreeOrigin (s : SeedCreator) (e : Env) (statusRpmOstree : OstreeStatus) : StageRes Unit :=
  stepBind ((goIndex statusRpmOstree.deployments 0, []) : StageRes Deployment) fun d =>
  stepBind ((deploymentCommit d.id, []) : StageRes String) fun bootedDeployment =>
  let bootedOSName := d.osname
  let originFileName := s.backupDir ++ "/ostree-" ++ bootedDeployment ++ ".origin"
  stepBind (statStep e originFileName) fun st =>
  match st with
  | .ok => (Except.ok (), [])
  | .otherErr m => (Except.error (GoErr.goErr m), [])
  | .notExist =>
    stepBind (hostStep e "cp"
      ["/ostree/deploy/" ++ bootedOSName ++ "/deploy/" ++ bootedDeployment ++ ".origin", originFileName]) fun _ =>
    (Except.ok (), [])

/-- `createAndPushSeedImage` (seed_creator.go lines 361-403): query the
ostree status, back up the booted origin file, write the Dockerfile to
a temporary file (removed on every later exit path), build and push. -/
def createAndPushSeedImage (s : SeedCreator) (e : Env) : StageRes Unit :=
  let image := s.containerRegistry ++ ":" ++ s.backupTag
  stepBind ((Except.ok (), [Eff.queryVersion]) : StageRes Unit) fun _ =>
  stepBind (queryStatusStep e) fun statusRpmOstree =>
  stepBind (backupOstreeOrigin s e statusRpmOstree) fun _ =>
  stepBind (tempStep e) fun tmpName =>
  withDeferredRemove (
    stepBind (writeStep e) fun _ =>
    stepBind (hostStepWrap e "podman" ["build", "-f", tmpName, "-t", image, s.backupDir]
      "Failed to build seed image") fun _ =>
    stepBind (hostStepWrap e "podman" ["push", "--authfile", s.authFile, image]
      "Failed to push seed image") fun _ =>
    (Except.ok (), []))

/-- `CreateSeedImage` (seed_creator.go lines 55-100): the full pipeline
in source order; the first error aborts the run. -/
def CreateSeedImage (s : SeedCreator) (e : Env) : StageRes Unit :=
  stepBind (mkdirStep e s.backupDir) fun _ =>
  stepBind (createContainerList s e) fun _ =>
  stepBind (stopServices e) fun _ =>
  stepBind (runRecertDryRun s e) fun _ =>
  stepBind (backupVar s e) fun _ =>
  stepBind (backupEtc s e) fun _ =>
  stepBind (backupOstree s e) fun _ =>
  stepBind (backupRPMOstree s e) fun _ =>
  stepBind (backupMCOConfig s e) fun _ =>
  stepBind (createAndPushSeedImage s e) fun _ =>
  (Except.ok (), [])

/-- True for effects that mutate host state; stat and pure reads,
the sleep and the status queries are read-only. -/
def hostMutating : Eff → Bool
  | .mkdirAll _ => true
  | .statF _ => false
  | .readFile _ => false
  | .runBash _ _ => true
  | .runHost _ _ => true
  | .systemctl action _ => action != "is-active"
  | .createFile _ => true
  | .createTemp _ _ => true
  | .writeTempFile => true
  | .removeTempFile => true
  | .sleepSecs _ => false
  | .queryVersion => false
  | .queryStatus => false

/-- True exactly for the commands and file creations that produce a
backup artifact or marker of a marker-gated stage (the crictl images,
oc, tar, ostree, rpm-ostree and cp invocations and the sentinel file):
the actions that must not re-run once their artifact exists. -/
def isBackupProducer : Eff → Bool
  | .runBash "crictl" args => args.headD "" == "images"
  | .runBash "oc" _ => true
  | .runBash "tar" _ => true
  | .runBash "ostree" _ => true
  | .runBash "rpm-ostree" _ => true
  | .runBash "cp" _ => true
  | .runHost "cp" _ => true
  | .createFile _ => true
  | _ => false

/-- A concrete SeedCreator configuration used by the closed theorems. -/
def cfgEx : SeedCreator :=
  { backupDir := "/var/tmp/backup", kubeconfig := "/kubeconfig", containerRegistry := "quay.io/org/repo",
    backupTag := "seed", authFile := "/var/lib/kubelet/config.json",
    recertContainerImage := "quay.io/recert:v1", etcdStaticPodFile := "/etc/kubernetes/manifests/etcd-pod.yaml" }

/-- Environment of a second run: every marker and artifact exists, every
remaining external command succeeds and crio reports inactive. -/
def envAllPresent : Env :=
  { stat := fun _ => .ok,
    mkdirAllRes := fun _ => none,
    createRes := fun _ => none,
    bash := fun _ _ => .ok "",
    host := fun _ _ => .ok "",
    sys := fun action _ => if action = "is-active" then .ok "inactive" else .ok "",
    rpmOstreeStatus := .ok { deployments := [{ osname := "rhcos", id := "rhcos-813febc", booted := true }] },
    etcdPodFile := fun _ => .ok (some [some { name := some "etcd", image := some "quay.io/etcd:64" }]),
    tempFileRes := .ok "/var/tmp/dockerfile-1",
    writeRes := none }

/-- C1 counterexample: with every backup artifact and marker already
present, the second `CreateSeedImage` run still succeeds and reaches
the assembly stage, but it is not free of host-mutating calls: it stops
the kubelet again (and reruns the recert containers and the image
build and push), so the marker-gated-skip property does not extend to
the shutdown, dry-run and assembly stages. -/
theorem createSeedImage_second_run_mutates :
    (CreateSeedImage cfgEx envAllPresent).1 = Except.ok () ∧
    Eff.systemctl "stop" "kubelet.service" ∈ (CreateSeedImage cfgEx envAllPresent).2 ∧
    Eff.runHost "podman" ["build", "-f", "/var/tmp/dockerfile-1", "-t", "quay.io/org/repo:seed", "/var/tmp/backup"]
      ∈ (CreateSeedImage cfgEx envAllPresent).2 ∧
    ((CreateSeedImage cfgEx envAllPresent).2.filter hostMutating ≠ []) :=
  ⟨rfl, by decide, by decide, by decide⟩

/-- C1 amended: the presence of a gated stage artifact means that stage
performs no host command beyond the stat (first six conjuncts, for any
environment); and a full second run with every artifact present still
succeeds and reaches the assembly build and push, executing no
backup-producing command — but the shutdown, recert dry-run and
assembly stages, which have no artifact markers, do re-execute their
host-mutating calls (last conjunct quantifies over the configuration at
the canonical all-present environment). -/
theorem createSeedImage_marker_gating (s : SeedCreator) (e : Env)
    (hcl : e.stat "/var/tmp/container_list.done" = StatResult.ok)
    (hvar : e.stat (s.backupDir ++ "/var.tgz") = StatResult.ok)
    (hetc : e.stat (s.backupDir ++ "/etc.tgz") = StatResult.ok)
    (hot : e.stat (s.backupDir ++ "/ostree.tgz") = StatResult.ok)
    (hrpm : e.stat (s.backupDir ++ "/rpm-ostree.json") = StatResult.ok)
    (hmco : e.stat (s.backupDir ++ "/mco-currentconfig.json") = StatResult.ok) :
    createContainerList s e = (Except.ok (), [Eff.statF "/var/tmp/container_list.done"]) ∧
    backupVar s e = (Except.ok (), [Eff.statF (s.backupDir ++ "/var.tgz")]) ∧
    backupEtc s e = (Except.ok (), [Eff.statF (s.backupDir ++ "/etc.tgz")]) ∧
    backupOstree s e = (Except.ok (), [Eff.statF (s.backupDir ++ "/ostree.tgz")]) ∧
    backupRPMOstree s e = (Except.ok (), [Eff.statF (s.backupDir ++ "/rpm-ostree.json")]) ∧
    backupMCOConfig s e = (Except.ok (), [Eff.statF (s.backupDir ++ "/mco-currentconfig.json")]) ∧
    (CreateSeedImage s envAllPresent).1 = Except.ok () ∧
    (CreateSeedImage s envAllPresent).2.all (fun x => !(isBackupProducer x)) = true ∧
    Eff.runHost "podman"
        ["build", "-f", "/var/tmp/dockerfile-1", "-t", s.containerRegistry ++ ":" ++ s.backupTag, s.backupDir]
      ∈ (CreateSeedImage s envAllPresent).2 ∧
    Eff.systemctl "stop" "kubelet.service" ∈ (CreateSeedImage s envAllPresent).2 := by
  refine ⟨?_, ?_, ?_, ?_, ?_, ?_, rfl, rfl, ?_, ?_⟩
  · simp [createContainerList, statStep, stepBind, hcl]
  · simp [backupVar, statStep, stepBind, hvar]
  · simp [backupEtc, statStep, stepBind, hetc]
  · simp [backupOstree, statStep, stepBind, hot]
  · simp [backupRPMOstree, statStep, stepBind, hrpm]
  · simp [backupMCOConfig, statStep, stepBind, hmco]
  · show _ ∈ [Eff.mkdirAll s.backupDir] ++ _
    simp [CreateSeedImage, createContainerList, stopServices, runRecertDryRun, backupVar, backupEtc,
      backupOstree, backupRPMOstree, backupMCOConfig, createAndPushSeedImage, backupOstreeOrigin,
      stepBind, statStep, sysStep, bashStep, hostStep, hostStepWrap, mkdirStep, createStep,
      queryStatusStep, tempStep, writeStep, withDeferredRemove, envAllPresent,
      getEtcdImageFromStaticDefinition, findEtcdImage, deploymentCommit, goSplit, goIndex]
  · simp [CreateSeedImage, createContainerList, stopServices, runRecertDryRun, backupVar, backupEtc,
      backupOstree, backupRPMOstree, backupMCOConfig, createAndPushSeedImage, backupOstreeOrigin,
      stepBind, statStep, sysStep, bashStep, hostStep, hostStepWrap, mkdirStep, createStep,
      queryStatusStep, tempStep, writeStep, withDeferredRemove, envAllPresent,
      getEtcdImageFromStaticDefinition, findEtcdImage, deploymentCommit, goSplit, goIndex]

/-- Witness for C1 amended at the concrete configuration and the
all-present environment. -/
theorem createSeedImage_marker_gating_witness :
    createContainerList cfgEx envAllPresent = (Except.ok (), [Eff.statF "/var/tmp/container_list.done"]) ∧
    backupVar cfgEx envAllPresent = (Except.ok (), [Eff.statF (cfgEx.backupDir ++ "/var.tgz")]) ∧
    backupEtc cfgEx envAllPresent = (Except.ok (), [Eff.statF (cfgEx.backupDir ++ "/etc.tgz")]) ∧
    backupOstree cfgEx envAllPresent = (Except.ok (), [Eff.statF (cfgEx.backupDir ++ "/ostree.tgz")]) ∧
    backupRPMOstree cfgEx envAllPresent = (Except.ok (), [Eff.statF (cfgEx.backupDir ++ "/rpm-ostree.json")]) ∧
    backupMCOConfig cfgEx envAllPresent = (Except.ok (), [Eff.statF (cfgEx.backupDir ++ "/mco-currentconfig.json")]) ∧
    (CreateSeedImage cfgEx envAllPresent).1 = Except.ok () ∧
    (CreateSeedImage cfgEx envAllPresent).2.all (fun x => !(isBackupProducer x)) = true ∧
    Eff.runHost "podman"
        ["build", "-f", "/var/tmp/dockerfile-1", "-t", cfgEx.containerRegistry ++ ":" ++ cfgEx.backupTag, cfgEx.backupDir]
      ∈ (CreateSeedImage cfgEx envAllPresent).2 ∧
    Eff.systemctl "stop" "kubelet.service" ∈ (CreateSeedImage cfgEx envAllPresent).2 :=
  createSeedImage_marker_gating cfgEx envAllPresent rfl rfl rfl rfl rfl rfl

/-- The rpm-ostree status of the C2 failing input: deployment 0 is not
booted, deployment 1 carries the booted flag. -/
def stBug : OstreeStatus :=
  { deployments := [{ osname := "osA", id := "osA-sha1", booted := false },
                    { osname := "osB", id := "osB-sha2", booted := true }] }

/-- Environment in which no marker exists yet. -/
def envOriginAbsent : Env := { envAllPresent with stat := fun _ => .notExist }

/-- C2: `backupOstreeOrigin` copies the origin file of deployment 0 of
the status list even though the booted flag of that deployment is false
and the deployment whose flag is true sits at position 1 — the
backed-up `.origin` file and the `ostree-<commit>.origin` artifact name
come from list position, not from the booted flag (the source comments
at lines 407-411 say "booted ostree deployment" while indexing
`Deployments[0]`). -/
theorem backupOstreeOrigin_uses_position_not_booted :
    Eff.runHost "cp" ["/ostree/deploy/osA/deploy/sha1.origin", "/var/tmp/backup/ostree-sha1.origin"]
      ∈ (backupOstreeOrigin cfgEx envOriginAbsent stBug).2 ∧
    (backupOstreeOrigin cfgEx envOriginAbsent stBug).1 = Except.ok () ∧
    (stBug.deployments.filter (fun d => d.booted)).map (fun d => d.id) = ["osB-sha2"] ∧
    (goIndex stBug.deployments 0).map (fun d => d.booted) = Except.ok false :=
  ⟨by decide, rfl, by decide, rfl⟩

/-- Environment in which the recert dry-run container fails: the
inventory sentinel exists, every backup marker is absent, and every
podman command succeeds except the dry-run one. -/
def envRecertFails : Env :=
  { envAllPresent with
    stat := fun p => if p = "/var/tmp/container_list.done" then .ok else .notExist,
    host := fun c args =>
      if c == "podman" && args.contains "--dry-run" then .error "recert failed" else .ok "" }

/-- C3: when the recert dry-run fails, `runRecertDryRun` returns the
wrapped error at once: the ephemeral recert_etcd container was started
but the `podman kill recert_etcd` teardown never executes (the
ephemeral instance leaks), while the pipeline does abort before any
backup-producing command runs. -/
theorem recertDryRunFailure_leaks_etcd :
    (runRecertDryRun cfgEx envRecertFails).1 =
      Except.error (GoErr.goErr ("Failed to run recert container" ++ ": " ++ "recert failed")) ∧
    Eff.runHost "podman" (recertEtcdRunArgs cfgEx "quay.io/etcd:64") ∈ (runRecertDryRun cfgEx envRecertFails).2 ∧
    Eff.runHost "podman" ["kill", "recert_etcd"] ∉ (runRecertDryRun cfgEx envRecertFails).2 ∧
    (CreateSeedImage cfgEx envRecertFails).1 =
      Except.error (GoErr.goErr ("Failed to run recert container" ++ ": " ++ "recert failed")) ∧
    (CreateSeedImage cfgEx envRecertFails).2.all (fun x => !(isBackupProducer x)) = true :=
  ⟨rfl, by decide, by decide, rfl, by decide⟩

/-- C10: for each marker-gated backup stage (var, ostree, rpm-ostree,
mco-config, origin), a stat failure other than not-exist makes the
stage return that error immediately with no host command executed
(only the stat itself is in the trace), and an existing marker makes
the stage return nil, again with no host command. -/
theorem gatedStage_stat_guard (s : SeedCreator) (e : Env) (m : String)
    (st : OstreeStatus) (d : Deployment) (ds : List Deployment) (sha : String)
    (hd : st.deployments = d :: ds)
    (hsha : deploymentCommit d.id = Except.ok sha) :
    (e.stat (s.backupDir ++ "/var.tgz") = StatResult.otherErr m →
      backupVar s e = (Except.error (GoErr.goErr m), [Eff.statF (s.backupDir ++ "/var.tgz")])) ∧
    (e.stat (s.backupDir ++ "/var.tgz") = StatResult.ok →
      backupVar s e = (Except.ok (), [Eff.statF (s.backupDir ++ "/var.tgz")])) ∧
    (e.stat (s.backupDir ++ "/ostree.tgz") = StatResult.otherErr m →
      backupOstree s e = (Except.error (GoErr.goErr m), [Eff.statF (s.backupDir ++ "/ostree.tgz")])) ∧
    (e.stat (s.backupDir ++ "/ostree.tgz") = StatResult.ok →
      backupOstree s e = (Except.ok (), [Eff.statF (s.backupDir ++ "/ostree.tgz")])) ∧
    (e.stat (s.backupDir ++ "/rpm-ostree.json") = StatResult.otherErr m →
      backupRPMOstree s e = (Except.error (GoErr.goErr m), [Eff.statF (s.backupDir ++ "/rpm-ostree.json")])) ∧
    (e.stat (s.backupDir ++ "/rpm-ostree.json") = StatResult.ok →
      backupRPMOstree s e = (Except.ok (), [Eff.statF (s.backupDir ++ "/rpm-ostree.json")])) ∧
    (e.stat (s.backupDir ++ "/mco-currentconfig.json") = StatResult.otherErr m →
      backupMCOConfig s e = (Except.error (GoErr.goErr m), [Eff.statF (s.backupDir ++ "/mco-currentconfig.json")])) ∧
    (e.stat (s.backupDir ++ "/mco-currentconfig.json") = StatResult.ok →
      backupMCOConfig s e = (Except.ok (), [Eff.statF (s.backupDir ++ "/mco-currentconfig.json")])) ∧
    (e.stat (s.backupDir ++ "/ostree-" ++ sha ++ ".origin") = StatResult.otherErr m →
      backupOstreeOrigin s e st =
        (Except.error (GoErr.goErr m), [Eff.statF (s.backupDir ++ "/ostree-" ++ sha ++ ".origin")])) ∧
    (e.stat (s.backupDir ++ "/ostree-" ++ sha ++ ".origin") = StatResult.ok →
      backupOstreeOrigin s e st = (Except.ok (), [Eff.statF (s.backupDir ++ "/ostree-" ++ sha ++ ".origin")])) := by
  refine ⟨?_, ?_, ?_, ?_, ?_, ?_, ?_, ?_, ?_, ?_⟩ <;> intro h
  · simp [backupVar, statStep, stepBind, h]
  · simp [backupVar, statStep, stepBind, h]
  · simp [backupOstree, statStep, stepBind, h]
  · simp [backupOstree, statStep, stepBind, h]
  · simp [backupRPMOstree, statStep, stepBind, h]
  · simp [backupRPMOstree, statStep, stepBind, h]
  · simp [backupMCOConfig, statStep, stepBind, h]
  · simp [backupMCOConfig, statStep, stepBind, h]
  · simp [backupOstreeOrigin, statStep, stepBind, hd, goIndex, hsha, h]
  · simp [backupOstreeOrigin, statStep, stepBind, hd, goIndex, hsha, h]

/-- Witness for C10 at a concrete configuration, status and message. -/
theorem gatedStage_stat_guard_witness :
    ((envAllPresent.stat (cfgEx.backupDir ++ "/var.tgz") = StatResult.otherErr "permission denied" →
      backupVar cfgEx envAllPresent =
        (Except.error (GoErr.goErr "permission denied"), [Eff.statF (cfgEx.backupDir ++ "/var.tgz")])) ∧
    (envAllPresent.stat (cfgEx.backupDir ++ "/var.tgz") = StatResult.ok →
      backupVar cfgEx envAllPresent = (Except.ok (), [Eff.statF (cfgEx.backupDir ++ "/var.tgz")])) ∧
    (envAllPresent.stat (cfgEx.backupDir ++ "/ostree.tgz") = StatResult.otherErr "permission denied" →
      backupOstree cfgEx envAllPresent =
        (Except.error (GoErr.goErr "permission denied"), [Eff.statF (cfgEx.backupDir ++ "/ostree.tgz")])) ∧
    (envAllPresent.stat (cfgEx.backupDir ++ "/ostree.tgz") = StatResult.ok →
      backupOstree cfgEx envAllPresent = (Except.ok (), [Eff.statF (cfgEx.backupDir ++ "/ostree.tgz")])) ∧
    (envAllPresent.stat (cfgEx.backupDir ++ "/rpm-ostree.json") = StatResult.otherErr "permission denied" →
      backupRPMOstree cfgEx envAllPresent =
        (Except.error (GoErr.goErr "permission denied"), [Eff.statF (cfgEx.backupDir ++ "/rpm-ostree.json")])) ∧
    (envAllPresent.stat (cfgEx.backupDir ++ "/rpm-ostree.json") = StatResult.ok →
      backupRPMOstree cfgEx envAllPresent = (Except.ok (), [Eff.statF (cfgEx.backupDir ++ "/rpm-ostree.json")])) ∧
    (envAllPresent.stat (cfgEx.backupDir ++ "/mco-currentconfig.json") = StatResult.otherErr "permission denied" →
      backupMCOConfig cfgEx envAllPresent =
        (Except.error (GoErr.goErr "permission denied"), [Eff.statF (cfgEx.backupDir ++ "/mco-currentconfig.json")])) ∧
    (envAllPresent.stat (cfgEx.backupDir ++ "/mco-currentconfig.json") = StatResult.ok →
      backupMCOConfig cfgEx envAllPresent =
        (Except.ok (), [Eff.statF (cfgEx.backupDir ++ "/mco-currentconfig.json")])) ∧
    (envAllPresent.stat (cfgEx.backupDir ++ "/ostree-" ++ "sha1" ++ ".origin") = StatResult.otherErr "permission denied" →
      backupOstreeOrigin cfgEx envAllPresent stBug =
        (Except.error (GoErr.goErr "permission denied"),
         [Eff.statF (cfgEx.backupDir ++ "/ostree-" ++ "sha1" ++ ".origin")])) ∧
    (envAllPresent.stat (cfgEx.backupDir ++ "/ostree-" ++ "sha1" ++ ".origin") = StatResult.ok →
      backupOstreeOrigin cfgEx envAllPresent stBug =
        (Except.ok (), [Eff.statF (cfgEx.backupDir ++ "/ostree-" ++ "sha1" ++ ".origin")]))) :=
  gatedStage_stat_guard cfgEx envAllPresent "permission denied" stBug
    { osname := "osA", id := "osA-sha1", booted := false }
    [{ osname := "osB", id := "osB-sha2", booted := true }] "sha1" rfl rfl

theorem findEtcdImage_none (cs : List (Option GoContainer))
    (h : ∀ gc ∈ cs, ∀ c : GoContainer, gc = some c → c.name = some "etcd" → c.image = none) :
    findEtcdImage cs = none := by
  induction cs with
  | nil => rfl
  | cons gc rest ih =>
    have hrest : ∀ gc2 ∈ rest, ∀ c : GoContainer, gc2 = some c → c.name = some "etcd" → c.image = none :=
      fun gc2 hm c he hn => h gc2 (List.mem_cons_of_mem _ hm) c he hn
    cases gc with
    | none => simpa [findEtcdImage] using ih hrest
    | some c =>
      by_cases hn : c.name = some "etcd"
      · have himg : c.image = none := h (some c) (List.mem_cons_self _ _) c rfl hn
        simp [findEtcdImage, hn, himg, ih hrest]
      · simp [findEtcdImage, hn, ih hrest]

theorem findEtcdImage_sound (cs : List (Option GoContainer)) (img : String)
    (h : findEtcdImage cs = some img) :
    ∃ c : GoContainer, some c ∈ cs ∧ c.name = some "etcd" ∧ c.image = some img := by
  induction cs with
  | nil => simp [findEtcdImage] at h
  | cons gc rest ih =>
    cases gc with
    | none =>
      obtain ⟨c, hm, hn, hi⟩ := ih (by simpa [findEtcdImage] using h)
      exact ⟨c, List.mem_cons_of_mem _ hm, hn, hi⟩
    | some c =>
      by_cases hn : c.name = some "etcd"
      · cases hi : c.image with
        | some i =>
          have hii : i = img := by simpa [findEtcdImage, hn, hi] using h
          exact ⟨c, List.mem_cons_self _ _, hn, by rw [hi, hii]⟩
        | none =>
          obtain ⟨c2, hm, hn2, hi2⟩ := ih (by simpa [findEtcdImage, hn, hi] using h)
          exact ⟨c2, List.mem_cons_of_mem _ hm, hn2, hi2⟩
      · obtain ⟨c2, hm, hn2, hi2⟩ := ih (by simpa [findEtcdImage, hn] using h)
        exact ⟨c2, List.mem_cons_of_mem _ hm, hn2, hi2⟩

/-- C5: data-store image resolution over the parsed static pod manifest
returns the image of the container named "etcd" (for the example
containers [etcd: X, other: Y] it returns X), every successful
resolution comes from a container named "etcd" carrying that image
field, and resolution fails fatally when no container named "etcd"
with an image field exists. -/
theorem etcdImage_resolution (s : SeedCreator) (e eFail e2 : Env) (X Y img : String)
    (cs cs2 : List (Option GoContainer))
    (hok : e.etcdPodFile s.etcdStaticPodFile =
      Except.ok (some [some { name := some "etcd", image := some X },
                       some { name := some "other", image := some Y }]))
    (hnone : eFail.etcdPodFile s.etcdStaticPodFile = Except.ok (some cs))
    (hno : ∀ gc ∈ cs, ∀ c : GoContainer, gc = some c → c.name = some "etcd" → c.image = none)
    (h2 : e2.etcdPodFile s.etcdStaticPodFile = Except.ok (some cs2))
    (hsome : getEtcdImageFromStaticDefinition s e2 = Except.ok img) :
    getEtcdImageFromStaticDefinition s e = Except.ok X ∧
    getEtcdImageFromStaticDefinition s eFail =
      Except.error (GoErr.fatal "etcd container image not found in the YAML.") ∧
    ∃ c : GoContainer, some c ∈ cs2 ∧ c.name = some "etcd" ∧ c.image = some img := by
  refine ⟨?_, ?_, ?_⟩
  · simp [getEtcdImageFromStaticDefinition, hok, findEtcdImage]
  · simp [getEtcdImageFromStaticDefinition, hnone, findEtcdImage_none cs hno]
  · cases hf : findEtcdImage cs2 with
    | none => simp [getEtcdImageFromStaticDefinition, h2, hf] at hsome
    | some i =>
      have hii : i = img := by simpa [getEtcdImageFromStaticDefinition, h2, hf] using hsome
      exact findEtcdImage_sound cs2 img (hii ▸ hf)

/-- The two example containers of the C5 resolution scenario. -/
def podExampleContainers : List (Option GoContainer) :=
  [some { name := some "etcd", image := some "img-x" },
   some { name := some "other", image := some "img-y" }]

/-- Environment whose manifest holds the two example containers. -/
def envPodExample : Env :=
  { envAllPresent with etcdPodFile := fun _ => Except.ok (some podExampleContainers) }

/-- Environment whose manifest holds no containers at all. -/
def envPodEmpty : Env :=
  { envAllPresent with etcdPodFile := fun _ => Except.ok (some []) }

/-- Witness for C5 at the two concrete manifests and the all-present
environment. -/
theorem etcdImage_resolution_witness :
    getEtcdImageFromStaticDefinition cfgEx envPodExample = Except.ok "img-x" ∧
    getEtcdImageFromStaticDefinition cfgEx envPodEmpty =
      Except.error (GoErr.fatal "etcd container image not found in the YAML.") ∧
    ∃ c : GoContainer, some c ∈ [some { name := some "etcd", image := some "quay.io/etcd:64" }] ∧
      c.name = some "etcd" ∧ c.image = some "quay.io/etcd:64" :=
  etcdImage_resolution cfgEx envPodExample envPodEmpty envAllPresent "img-x" "img-y" "quay.io/etcd:64"
    [] [some { name := some "etcd", image := some "quay.io/etcd:64" }]
    rfl rfl (fun gc hm => absurd hm (List.not_mem_nil gc)) rfl rfl

/-- Contiguous occurrence of a flag and its value in an argument
list. -/
def argPair (flag val : String) (args : List String) : Prop :=
  ∃ pre post, args = pre ++ flag :: val :: post

theorem argPair_here (flag val : String) (rest : List String) :
    argPair flag val (flag :: val :: rest) :=
  ⟨[], rest, rfl⟩

theorem argPair_cons (flag val x : String) (l : List String) (h : argPair flag val l) :
    argPair flag val (x :: l) := by
  obtain ⟨pre, post, hh⟩ := h
  exact ⟨x :: pre, post, by rw [hh]; rfl⟩

/-- C7: the tar command of the /var backup carries a single-quoted
--exclude option for each of the six fixed volatile subpaths together
with the --selinux flag, and when var.tgz is absent `backupVar` runs
exactly this tar command (exclusion of the matching paths is then
performed by tar itself). -/
theorem varBackup_carries_excludes (s : SeedCreator) (e : Env)
    (habs : e.stat (s.backupDir ++ "/var.tgz") = StatResult.notExist) :
    (∀ p ∈ varExcludePatterns, argPair "--exclude" (shellQuote p) (varTarArgs (s.backupDir ++ "/var.tgz"))) ∧
    "--selinux" ∈ varTarArgs (s.backupDir ++ "/var.tgz") ∧
    varExcludePatterns = ["/var/tmp/*", "/var/lib/log/*", "/var/log/*", "/var/lib/containers/*",
      "/var/lib/kubelet/pods/*", "/var/lib/cni/bin/*"] ∧
    Eff.runBash "tar" (varTarArgs (s.backupDir ++ "/var.tgz")) ∈ (backupVar s e).2 := by
  have hv : varTarArgs (s.backupDir ++ "/var.tgz") =
      "czf" :: (s.backupDir ++ "/var.tgz") :: "--exclude" :: shellQuote "/var/tmp/*" ::
      "--exclude" :: shellQuote "/var/lib/log/*" :: "--exclude" :: shellQuote "/var/log/*" ::
      "--exclude" :: shellQuote "/var/lib/containers/*" :: "--exclude" :: shellQuote "/var/lib/kubelet/pods/*" ::
      "--exclude" :: shellQuote "/var/lib/cni/bin/*" :: ["--selinux", "/var"] := rfl
  refine ⟨?_, ?_, rfl, ?_⟩
  · intro p hp
    rw [hv]
    simp only [varExcludePatterns, List.mem_cons, List.not_mem_nil, or_false] at hp
    rcases hp with rfl | rfl | rfl | rfl | rfl | rfl
    · exact argPair_cons _ _ _ _ (argPair_cons _ _ _ _ (argPair_here _ _ _))
    · exact argPair_cons _ _ _ _ (argPair_cons _ _ _ _ (argPair_cons _ _ _ _ (argPair_cons _ _ _ _
        (argPair_here _ _ _))))
    · exact argPair_cons _ _ _ _ (argPair_cons _ _ _ _ (argPair_cons _ _ _ _ (argPair_cons _ _ _ _
        (argPair_cons _ _ _ _ (argPair_cons _ _ _ _ (argPair_here _ _ _))))))
    · exact argPair_cons _ _ _ _ (argPair_cons _ _ _ _ (argPair_cons _ _ _ _ (argPair_cons _ _ _ _
        (argPair_cons _ _ _ _ (argPair_cons _ _ _ _ (argPair_cons _ _ _ _ (argPair_cons _ _ _ _
        (argPair_here _ _ _))))))))
    · exact argPair_cons _ _ _ _ (argPair_cons _ _ _ _ (argPair_cons _ _ _ _ (argPair_cons _ _ _ _
        (argPair_cons _ _ _ _ (argPair_cons _ _ _ _ (argPair_cons _ _ _ _ (argPair_cons _ _ _ _
        (argPair_cons _ _ _ _ (argPair_cons _ _ _ _ (argPair_here _ _ _))))))))))
    · exact argPair_cons _ _ _ _ (argPair_cons _ _ _ _ (argPair_cons _ _ _ _ (argPair_cons _ _ _ _
        (argPair_cons _ _ _ _ (argPair_cons _ _ _ _ (argPair_cons _ _ _ _ (argPair_cons _ _ _ _
        (argPair_cons _ _ _ _ (argPair_cons _ _ _ _ (argPair_cons _ _ _ _ (argPair_cons _ _ _ _
        (argPair_here _ _ _))))))))))))
  · rw [hv]; simp
  · cases hb : e.bash "tar" (varTarArgs (s.backupDir ++ "/var.tgz")) <;>
      simp [backupVar, statStep, stepBind, bashStep, habs, hb]

/-- Witness for C7 at the concrete configuration and an environment in
which var.tgz is absent. -/
theorem varBackup_carries_excludes_witness :
    (∀ p ∈ varExcludePatterns, argPair "--exclude" (shellQuote p) (varTarArgs (cfgEx.backupDir ++ "/var.tgz"))) ∧
    "--selinux" ∈ varTarArgs (cfgEx.backupDir ++ "/var.tgz") ∧
    varExcludePatterns = ["/var/tmp/*", "/var/lib/log/*", "/var/log/*", "/var/lib/containers/*",
      "/var/lib/kubelet/pods/*", "/var/lib/cni/bin/*"] ∧
    Eff.runBash "tar" (varTarArgs (cfgEx.backupDir ++ "/var.tgz")) ∈ (backupVar cfgEx envOriginAbsent).2 :=
  varBackup_carries_excludes cfgEx envOriginAbsent rfl

/-- Environment in which etc.tgz exists but etc.deletions (and every
other artifact) does not. -/
def envEtcTgzOnly : Env :=
  { envAllPresent with stat := fun p => if p = "/var/tmp/backup/etc.tgz" then .ok else .notExist }

/-- C8 counterexample: with etc.tgz present but etc.deletions absent,
`backupEtc` returns nil after the single stat of etc.tgz and runs no
command at all, so the commands producing etc.deletions do not run
even though that artifact is absent — etc.deletions is not gated by
its own output-file marker but by the etc.tgz marker. -/
theorem etcDeletions_not_self_gated :
    envEtcTgzOnly.stat ("/var/tmp/backup" ++ "/etc.deletions") = StatResult.notExist ∧
    backupEtc cfgEx envEtcTgzOnly = (Except.ok (), [Eff.statF ("/var/tmp/backup" ++ "/etc.tgz")]) :=
  ⟨by decide, rfl⟩

/-- C8 amended: var.tgz, ostree.tgz, rpm-ostree.json and
mco-currentconfig.json are each gated by their own output-file marker
(the producing command runs exactly when that artifact is absent),
while etc.tgz and etc.deletions are jointly gated by the single
etc.tgz marker: both producing pipelines run when etc.tgz is absent
(the tar pipeline once the deletions pipeline succeeded) and neither
runs when etc.tgz is present, whatever the state of etc.deletions. -/
theorem backupArtifact_gating (s : SeedCreator) (e : Env) (o : String) :
    (e.stat (s.backupDir ++ "/var.tgz") = StatResult.notExist →
      Eff.runBash "tar" (varTarArgs (s.backupDir ++ "/var.tgz")) ∈ (backupVar s e).2) ∧
    (e.stat (s.backupDir ++ "/var.tgz") = StatResult.ok →
      (backupVar s e).2 = [Eff.statF (s.backupDir ++ "/var.tgz")]) ∧
    (e.stat (s.backupDir ++ "/ostree.tgz") = StatResult.notExist →
      Eff.runBash "tar" ["czf", s.backupDir ++ "/ostree.tgz", "--selinux", "-C", "/ostree/repo", "."]
        ∈ (backupOstree s e).2) ∧
    (e.stat (s.backupDir ++ "/ostree.tgz") = StatResult.ok →
      (backupOstree s e).2 = [Eff.statF (s.backupDir ++ "/ostree.tgz")]) ∧
    (e.stat (s.backupDir ++ "/rpm-ostree.json") = StatResult.notExist →
      Eff.runBash "rpm-ostree" ["status", "-v", "--json", ">", s.backupDir ++ "/rpm-ostree.json"]
        ∈ (backupRPMOstree s e).2) ∧
    (e.stat (s.backupDir ++ "/rpm-ostree.json") = StatResult.ok →
      (backupRPMOstree s e).2 = [Eff.statF (s.backupDir ++ "/rpm-ostree.json")]) ∧
    (e.stat (s.backupDir ++ "/mco-currentconfig.json") = StatResult.notExist →
      Eff.runBash "cp" ["/etc/machine-config-daemon/currentconfig", s.backupDir ++ "/mco-currentconfig.json"]
        ∈ (backupMCOConfig s e).2) ∧
    (e.stat (s.backupDir ++ "/mco-currentconfig.json") = StatResult.ok →
      (backupMCOConfig s e).2 = [Eff.statF (s.backupDir ++ "/mco-currentconfig.json")]) ∧
    (e.stat (s.backupDir ++ "/etc.tgz") = StatResult.notExist →
      Eff.runBash "ostree" (etcDeletionsArgs s) ∈ (backupEtc s e).2 ∧
      (e.bash "ostree" (etcDeletionsArgs s) = Except.ok o →
        Eff.runBash "ostree" (etcTgzArgs s) ∈ (backupEtc s e).2)) ∧
    (e.stat (s.backupDir ++ "/etc.tgz") = StatResult.ok →
      (backupEtc s e).2 = [Eff.statF (s.backupDir ++ "/etc.tgz")]) := by
  refine ⟨?_, ?_, ?_, ?_, ?_, ?_, ?_, ?_, ?_, ?_⟩ <;> intro h
  · cases hb : e.bash "tar" (varTarArgs (s.backupDir ++ "/var.tgz")) <;>
      simp [backupVar, statStep, stepBind, bashStep, h, hb]
  · simp [backupVar, statStep, stepBind, h]
  · cases hb : e.bash "tar" ["czf", s.backupDir ++ "/ostree.tgz", "--selinux", "-C", "/ostree/repo", "."] <;>
      simp [backupOstree, statStep, stepBind, bashStep, h, hb]
  · simp [backupOstree, statStep, stepBind, h]
  · cases hb : e.bash "rpm-ostree" ["status", "-v", "--json", ">", s.backupDir ++ "/rpm-ostree.json"] <;>
      simp [backupRPMOstree, statStep, stepBind, bashStep, h, hb]
  · simp [backupRPMOstree, statStep, stepBind, h]
  · cases hb : e.bash "cp" ["/etc/machine-config-daemon/currentconfig", s.backupDir ++ "/mco-currentconfig.json"] <;>
      simp [backupMCOConfig, statStep, stepBind, bashStep, h, hb]
  · simp [backupMCOConfig, statStep, stepBind, h]
  · constructor
    · cases hb1 : e.bash "ostree" (etcDeletionsArgs s) <;>
        cases hb2 : e.bash "ostree" (etcTgzArgs s) <;>
        simp [backupEtc, statStep, stepBind, bashStep, h, hb1, hb2]
    · intro hb1
      cases hb2 : e.bash "ostree" (etcTgzArgs s) <;>
        simp [backupEtc, statStep, stepBind, bashStep, h, hb1, hb2]
  · simp [backupEtc, statStep, stepBind, h]

/-- Witness for C8 amended at the concrete configuration and the
all-absent environment. -/
theorem backupArtifact_gating_witness :
    ((envOriginAbsent.stat (cfgEx.backupDir ++ "/var.tgz") = StatResult.notExist →
      Eff.runBash "tar" (varTarArgs (cfgEx.backupDir ++ "/var.tgz")) ∈ (backupVar cfgEx envOriginAbsent).2) ∧
    (envOriginAbsent.stat (cfgEx.backupDir ++ "/var.tgz") = StatResult.ok →
      (backupVar cfgEx envOriginAbsent).2 = [Eff.statF (cfgEx.backupDir ++ "/var.tgz")]) ∧
    (envOriginAbsent.stat (cfgEx.backupDir ++ "/ostree.tgz") = StatResult.notExist →
      Eff.runBash "tar" ["czf", cfgEx.backupDir ++ "/ostree.tgz", "--selinux", "-C", "/ostree/repo", "."]
        ∈ (backupOstree cfgEx envOriginAbsent).2) ∧
    (envOriginAbsent.stat (cfgEx.backupDir ++ "/ostree.tgz") = StatResult.ok →
      (backupOstree cfgEx envOriginAbsent).2 = [Eff.statF (cfgEx.backupDir ++ "/ostree.tgz")]) ∧
    (envOriginAbsent.stat (cfgEx.backupDir ++ "/rpm-ostree.json") = StatResult.notExist →
      Eff.runBash "rpm-ostree" ["status", "-v", "--json", ">", cfgEx.backupDir ++ "/rpm-ostree.json"]
        ∈ (backupRPMOstree cfgEx envOriginAbsent).2) ∧
    (envOriginAbsent.stat (cfgEx.backupDir ++ "/rpm-ostree.json") = StatResult.ok →
      (backupRPMOstree cfgEx envOriginAbsent).2 = [Eff.statF (cfgEx.backupDir ++ "/rpm-ostree.json")]) ∧
    (envOriginAbsent.stat (cfgEx.backupDir ++ "/mco-currentconfig.json") = StatResult.notExist →
      Eff.runBash "cp" ["/etc/machine-config-daemon/currentconfig", cfgEx.backupDir ++ "/mco-currentconfig.json"]
        ∈ (backupMCOConfig cfgEx envOriginAbsent).2) ∧
    (envOriginAbsent.stat (cfgEx.backupDir ++ "/mco-currentconfig.json") = StatResult.ok →
      (backupMCOConfig cfgEx envOriginAbsent).2 = [Eff.statF (cfgEx.backupDir ++ "/mco-currentconfig.json")]) ∧
    (envOriginAbsent.stat (cfgEx.backupDir ++ "/etc.tgz") = StatResult.notExist →
      Eff.runBash "ostree" (etcDeletionsArgs cfgEx) ∈ (backupEtc cfgEx envOriginAbsent).2 ∧
      (envOriginAbsent.bash "ostree" (etcDeletionsArgs cfgEx) = Except.ok "" →
        Eff.runBash "ostree" (etcTgzArgs cfgEx) ∈ (backupEtc cfgEx envOriginAbsent).2)) ∧
    (envOriginAbsent.stat (cfgEx.backupDir ++ "/etc.tgz") = StatResult.ok →
      (backupEtc cfgEx envOriginAbsent).2 = [Eff.statF (cfgEx.backupDir ++ "/etc.tgz")])) :=
  backupArtifact_gating cfgEx envOriginAbsent ""

/-- Outcome of a Go function whose failure path calls `os.Exit`: a
normal return or a process exit with the given code. -/
inductive GoOutcome (α : Type)
  | ret (a : α)
  | exit (code : Nat)
deriving DecidableEq, Repr

/-- The fixed nsenter wrapper argument list built by
`runInHostNamespace` (cmd/utils.go lines 50-72). -/
def nsenterArguments (command : String) : List String :=
  ["nsenter", "--target", "1", "--cgroup", "--mount", "--ipc", "--pid", "--", command]

/-- `runInHostNamespace` (cmd/utils.go lines 48-86): joins the nsenter
wrapper and the arguments into one bash command line and runs it;
`exec` stands for `cmd.Output()`.  On success it returns the raw output
with a nil error; on any failure `check(err)` (cmd/utils.go lines
39-44) logs the message and terminates the whole process with exit
code 1, so no error value ever reaches the caller. -/
def runInHostNamespace (exec : String → Except String String) (command : String)
    (args : List String) : GoOutcome (String × Option String) :=
  match exec (" ".intercalate (nsenterArguments command ++ args)) with
  | .ok raw => .ret (raw, none)
  | .error _ => .exit 1

/-- An execution oracle whose command always fails with exit status 1. -/
def execAlwaysFails : String → Except String String := fun _ => .error "exit status 1"

/-- C9 counterexample: at a failing `podman images` invocation the
adapter terminates the process with exit code 1 instead of returning
to its caller an error carrying the program name, arguments and
failure message — the outcome is a process exit, not a returned
error. -/
theorem runInHostNamespace_exits_not_returns :
    runInHostNamespace execAlwaysFails "podman" ["images"] = GoOutcome.exit 1 := rfl

/-- C9 amended: the adapter never silently ignores a failure but also
never surfaces one as a returned error: a successful command returns
its raw output with a nil error, and any failing command makes `check`
log the message and terminate the whole process with exit code 1 —
every path that returns at all returns a nil error. -/
theorem runInHostNamespace_never_returns_error (exec : String → Except String String)
    (command : String) (args : List String) (raw m : String) :
    (exec (" ".intercalate (nsenterArguments command ++ args)) = Except.ok raw →
      runInHostNamespace exec command args = GoOutcome.ret (raw, none)) ∧
    (exec (" ".intercalate (nsenterArguments command ++ args)) = Except.error m →
      runInHostNamespace exec command args = GoOutcome.exit 1) := by
  constructor <;> intro h <;> simp [runInHostNamespace, h]

/-- Witness for C9 amended at two concrete execution oracles. -/
theorem runInHostNamespace_never_returns_error_witness :
    runInHostNamespace (fun _ => Except.ok "out") "podman" ["ps"] = GoOutcome.ret ("out", none) ∧
    runInHostNamespace execAlwaysFails "systemctl" ["is-active", "crio"] = GoOutcome.exit 1 :=
  ⟨(runInHostNamespace_never_returns_error (fun _ => Except.ok "out") "podman" ["ps"] "out" "x").1 rfl,
   (runInHostNamespace_never_returns_error execAlwaysFails "systemctl" ["is-active", "crio"] "x" "exit status 1").2 rfl⟩

/-- Default OCI image tag (cmd/utils.go line 27). -/
def backupTag : String := "oneimage"

/-- Pull secret written by the machine-config-operator (cmd/utils.go
line 29). -/
def imageRegistryAuthFile : String := "/var/lib/kubelet/config.json"

/-- Directory backed up as the datadir (cmd/utils.go line 31). -/
def sourceDir : String := "/var"

/-- Backup directory of the create command (cmd/utils.go line 33). -/
def backupDir : String := "/var/tmp/backup"

/-- One effect of the cobra `create` command (cmd/create.go);
`crunCMD` is a `runCMD` shell invocation, `creadLine` is
`readLineFromFile`. -/
inductive CEff
  | cprintf (s : String)
  | cdbusConnect
  | cdbusStopUnit (u : String)
  | cstat (p : String)
  | cmkdirAll (p : String)
  | ccreateFile (p : String)
  | crunCMD (cmdline : String)
  | creadLine (p : String)
  | ctempFile (dir : String) (pat : String)
  | cwriteTemp
  | cremoveTemp
deriving DecidableEq, Repr

/-- Abnormal end of the `create` command: `os.Exit` through `check`,
or a runtime panic. -/
inductive CExit
  | exitCode (n : Nat)
  | panicked (msg : String)
deriving DecidableEq, Repr

/-- Result of a fragment of the `create` command: its value (or the
process end) and the effects performed. -/
abbrev CRes (α : Type) := Except CExit α × List CEff

/-- Sequencing inside the `create` command; a process exit stops
everything (and, unlike a Go return, skips deferred calls). -/
def cbind {α β : Type} (a : CRes α) (f : α → CRes β) : CRes β :=
  match a with
  | (.ok x, t) => ((f x).1, t ++ (f x).2)
  | (.error er, t) => (.error er, t)

/-- External results seen by the `create` command.  `run cmdline` is
the error of `runCMD cmdline` (`runCMD` is repository code not among
the given sources; from its call sites and the spec it runs the shell
line and returns an error on non-zero exit, which the call sites feed
to `check`).  `readLine p` is `readLineFromFile p`. -/
structure CEnv where
  stat : String → StatResult
  mkdirRes : String → Option String
  createRes : String → Option String
  run : String → Option String
  readLine : String → Except String String
  dbusStop : String → Option String
  tempRes : Except String String

/-- `os.Stat` inside `create`. -/
def cstatStep (e : CEnv) (p : String) : CRes StatResult :=
  (.ok (e.stat p), [.cstat p])

/-- `runCMD` followed by `check(err)`: on failure log and exit 1. -/
def crunChecked (e : CEnv) (cmdline : String) : CRes Unit :=
  match e.run cmdline with
  | none => (.ok (), [.crunCMD cmdline])
  | some _ => (.error (.exitCode 1), [.crunCMD cmdline])

/-- `_ = runCMD(...)`: the crio status probe whose error is discarded
(create.go line 120). -/
def crunIgnored (_e : CEnv) (cmdline : String) : CRes Unit :=
  (.ok (), [.crunCMD cmdline])

/-- A D-Bus StopUnit call followed by `check`. -/
def cdbusStopChecked (e : CEnv) (u : String) : CRes Unit :=
  match e.dbusStop u with
  | none => (.ok (), [.cdbusStopUnit u])
  | some _ => (.error (.exitCode 1), [.cdbusStopUnit u])

/-- `os.MkdirAll` followed by `check`. -/
def cmkdirChecked (e : CEnv) (p : String) : CRes Unit :=
  match e.mkdirRes p with
  | none => (.ok (), [.cmkdirAll p])
  | some _ => (.error (.exitCode 1), [.cmkdirAll p])

/-- `os.Create` followed by `check`. -/
def ccreateChecked (e : CEnv) (p : String) : CRes Unit :=
  match e.createRes p with
  | none => (.ok (), [.ccreateFile p])
  | some _ => (.error (.exitCode 1), [.ccreateFile p])

/-- `readLineFromFile` whose error is discarded (create.go line 123):
the read string stays empty on failure. -/
def creadLineIgnored (e : CEnv) (p : String) : CRes String :=
  match e.readLine p with
  | .ok l => (.ok l, [.creadLine p])
  | .error _ => (.ok "", [.creadLine p])

/-- `readLineFromFile` followed by `check`. -/
def creadLineChecked (e : CEnv) (p : String) : CRes String :=
  match e.readLine p with
  | .ok l => (.ok l, [.creadLine p])
  | .error _ => (.error (.exitCode 1), [.creadLine p])

/-- `ioutil.TempFile("/var/tmp", "dockerfile-")`: a failure is only
logged, after which registering `defer os.Remove(tmpfile.Name())` on
the nil handle panics. -/
def ctempStep (e : CEnv) : CRes String :=
  match e.tempRes with
  | .ok nm => (.ok nm, [.ctempFile "/var/tmp" "dockerfile-"])
  | .error _ => (.error (.panicked "nil pointer dereference"), [.ctempFile "/var/tmp" "dockerfile-"])

/-- The deferred `os.Remove(tmpfile.Name())` of `create`: it runs on
normal return, while `os.Exit` through `check` skips it. -/
def cwithDeferredRemove (k : CRes Unit) : CRes Unit :=
  match k with
  | (.ok x, t) => (.ok x, t ++ [CEff.cremoveTemp])
  | (.error er, t) => (.error er, t)

/-- The nsenter prelude of every host shell line in cmd/create.go. -/
def nsenterCmd (rest : String) : String :=
  "nsenter --target 1 --cgroup --mount --ipc --pid -- " ++ rest

/-- create.go line 91: save the running container image list. -/
def criListContainersCMD : String :=
  nsenterCmd ("crictl images -o json | jq -r " ++ shellQuote ".images[] | .repoDigests[], .repoTags[]"
    ++ " > " ++ backupDir ++ "/containers.list")

/-- create.go line 119: probe the crio unit state into a file. -/
def crioServiceCMD : String :=
  nsenterCmd ("systemctl is-active crio > " ++ backupDir ++ "/crio.systemd.status")

/-- create.go line 128: stop all running containers. -/
def criStopContainersCMD : String :=
  "crictl ps -q | xargs --no-run-if-empty --max-args 1 --max-procs 10 crictl stop --timeout 5"

/-- create.go line 134: wait for the containers to stop. -/
def waitContainersCMD : String :=
  "while crictl ps -q | grep -q . ; do sleep 1 ; done"

/-- create.go lines 168-176: the same tar argument list as the
SeedCreator /var backup, joined into one shell line (the final
element of the argument list is sourceDir, whose value is "/var"). -/
def varTarCMD : String :=
  "tar " ++ " ".intercalate (varTarArgs (backupDir ++ "/var.tgz"))

/-- create.go line 188: archive the /etc config diff. -/
def etcTarCMD : String :=
  nsenterCmd ("ostree admin config-diff | awk " ++ shellQuote ("\x7bprint \"/etc/\" $2\x7d")
    ++ " | xargs tar czf " ++ backupDir ++ "/etc.tgz --selinux")

/-- create.go line 201: dump the rpm-ostree status. -/
def rpmOstreeCMD : String :=
  nsenterCmd ("rpm-ostree status -v --json > " ++ backupDir ++ "/rpm-ostree.json")

/-- create.go line 214: copy the current machine-config. -/
def mcoConfigCMD : String :=
  "cp /etc/machine-config-daemon/currentconfig " ++ backupDir ++ "/mco-currentconfig.json"

/-- create.go line 227: commit the backup directory into ostree. -/
def ostreeCommitCMD : String :=
  nsenterCmd ("ostree commit --branch " ++ backupTag ++ " " ++ backupDir
    ++ " > " ++ backupDir ++ "/ostree.commit")

/-- create.go lines 242-243: save the booted deployment OS name. -/
def bootedOSNameCMD : String :=
  nsenterCmd ("rpm-ostree status -v --json | jq -r "
    ++ shellQuote ".deployments[] | select(.booted == true) | .osname" ++ " > /var/tmp/booted.osname")

/-- create.go lines 248-249: save the booted deployment ID. -/
def bootedIDCMD : String :=
  nsenterCmd ("rpm-ostree status -v --json | jq -r "
    ++ shellQuote ".deployments[] | select(.booted == true) | .id" ++ " > /var/tmp/booted.id")

/-- create.go lines 269-270: copy the booted origin file. -/
def backupOriginCMD (bootedOSName bootedDeployment originFileName : String) : String :=
  nsenterCmd ("cp /ostree/deploy/" ++ bootedOSName ++ "/deploy/" ++ bootedDeployment
    ++ ".origin " ++ originFileName)

/-- create.go lines 294-296: build the seed OCI image. -/
def containerBuildCMD (tmpName containerRegistry : String) : String :=
  nsenterCmd ("podman build -f " ++ tmpName ++ " -t " ++ containerRegistry ++ ":" ++ backupTag
    ++ " --build-context ostreerepo=/sysroot/ostree/repo " ++ backupDir)

/-- create.go lines 301-303: push the seed OCI image. -/
def containerPushCMD (authFile containerRegistry : String) : String :=
  nsenterCmd ("podman push --authfile " ++ authFile ++ " " ++ containerRegistry ++ ":" ++ backupTag)

/-- `strings.Split(bootedID_, "-")[1]` in `create` (create.go line
262); the Go panic becomes `CExit.panicked`. -/
def cDeployCommit (bootedID : String) : Except CExit String :=
  match deploymentCommit bootedID with
  | .ok shaPart => .ok shaPart
  | .error _ => .error (.panicked "runtime error: index out of range")

/-- `create` (cmd/create.go lines 54-308): the cobra create command.
An empty --registry value prints the operator message and returns at
once; otherwise the inline pipeline runs, with `check` turning every
unrecovered failure into a process exit. -/
def create (containerRegistry : String) (authFile : String) (e : CEnv) : CRes Unit :=
  if containerRegistry = "" then
    (.ok (), [.cprintf " *** Please provide a valid container registry to store the created OCI images *** \n"])
  else
    cbind ((Except.ok (), [CEff.cdbusConnect]) : CRes Unit) fun _ =>
    cbind (cstatStep e "/var/tmp/container_list.done") fun st =>
    cbind (match st with
      | .notExist =>
        cbind (cmkdirChecked e backupDir) fun _ =>
        cbind (crunChecked e criListContainersCMD) fun _ =>
        ccreateChecked e "/var/tmp/container_list.done"
      | _ => ((Except.ok (), []) : CRes Unit)) fun _ =>
    cbind (cdbusStopChecked e "kubelet.service") fun _ =>
    cbind (crunIgnored e crioServiceCMD) fun _ =>
    cbind (creadLineIgnored e (backupDir ++ "/crio.systemd.status")) fun crioSystemdStatus =>
    cbind (if crioSystemdStatus = "active" then
        cbind (crunChecked e criStopContainersCMD) fun _ =>
        cbind (crunChecked e waitContainersCMD) fun _ =>
        cdbusStopChecked e "crio.service"
      else ((Except.ok (), []) : CRes Unit)) fun _ =>
    cbind (cstatStep e (backupDir ++ "/var.tgz")) fun stv =>
    cbind (match stv with
      | .notExist => crunChecked e varTarCMD
      | _ => ((Except.ok (), []) : CRes Unit)) fun _ =>
    cbind (cstatStep e (backupDir ++ "/etc.tgz")) fun ste =>
    cbind (match ste with
      | .notExist => crunChecked e etcTarCMD
      | _ => ((Except.ok (), []) : CRes Unit)) fun _ =>
    cbind (cstatStep e (backupDir ++ "/rpm-ostree.json")) fun str2 =>
    cbind (match str2 with
      | .notExist => crunChecked e rpmOstreeCMD
      | _ => ((Except.ok (), []) : CRes Unit)) fun _ =>
    cbind (cstatStep e (backupDir ++ "/mco-currentconfig.json")) fun stm =>
    cbind (match stm with
      | .notExist => crunChecked e mcoConfigCMD
      | _ => ((Except.ok (), []) : CRes Unit)) fun _ =>
    cbind (cstatStep e (backupDir ++ "/ostree.commit")) fun stc =>
    cbind (match stc with
      | .notExist => crunChecked e ostreeCommitCMD
      | _ => ((Except.ok (), []) : CRes Unit)) fun _ =>
    cbind (crunChecked e bootedOSNameCMD) fun _ =>
    cbind (crunChecked e bootedIDCMD) fun _ =>
    cbind (creadLineChecked e "/var/tmp/booted.osname") fun bootedOSName =>
    cbind (creadLineChecked e "/var/tmp/booted.id") fun bootedID =>
    cbind ((cDeployCommit bootedID, []) : CRes String) fun bootedDeployment =>
    cbind (cstatStep e (backupDir ++ "/ostree-" ++ bootedDeployment ++ ".origin")) fun sto =>
    cbind (match sto with
      | .notExist => crunChecked e (backupOriginCMD bootedOSName bootedDeployment
          (backupDir ++ "/ostree-" ++ bootedDeployment ++ ".origin"))
      | _ => ((Except.ok (), []) : CRes Unit)) fun _ =>
    cbind (ctempStep e) fun tmpName =>
    cwithDeferredRemove (
      cbind ((Except.ok (), [CEff.cwriteTemp]) : CRes Unit) fun _ =>
      cbind (crunChecked e (containerBuildCMD tmpName containerRegistry)) fun _ =>
      crunChecked e (containerPushCMD authFile containerRegistry))

/-- True for the create-command effects that write to the filesystem or
otherwise mutate host state; the printed message, the stats, the line
reads and the D-Bus connection are not mutations. -/
def cMutating : CEff → Bool
  | .cprintf _ => false
  | .cdbusConnect => false
  | .cdbusStopUnit _ => true
  | .cstat _ => false
  | .cmkdirAll _ => true
  | .ccreateFile _ => true
  | .crunCMD _ => true
  | .creadLine _ => false
  | .ctempFile _ _ => true
  | .cwriteTemp => true
  | .cremoveTemp => true

/-- C6: invoked with an empty --registry value, `create` prints the
operator message and returns normally: no error, no process exit, and
no filesystem write or other host-mutating effect in its trace. -/
theorem create_empty_registry_noop (authFile : String) (e : CEnv) :
    create "" authFile e =
      (Except.ok (), [CEff.cprintf " *** Please provide a valid container registry to store the created OCI images *** \n"]) ∧
    (create "" authFile e).2.all (fun x => !(cMutating x)) = true :=
  ⟨rfl, rfl⟩
